import Mathlib

/-!
Verification of the Dependency Grapher frontend core against its
natural-language specification.

The development shallowly embeds the JavaScript source:
  * `pollAnalysis` (src/frontend/src/services/api.js) — the bounded polling
    loop, embedded as a fuelled recursion over an abstract fetch oracle;
  * `useAnalysis` (the analysis-lifecycle hook) — embedded as a step
    function over `SessionState` driven by the events the hook's callbacks
    and the poll loop's callbacks can fire;
  * the App component's selection orchestration (`handleNodeClick`,
    `handleRiskFileClick`) — embedded as a step function over `AppState`
    with an explicit list of pending blast-radius requests, so that
    out-of-order resolution of fetches can be expressed as event traces;
  * the GraphViewer component — embedded as a step function over `GVState`
    recording construct/destroy counts of the cytoscape engine instance,
    explicit layout (reposition) calls, the highlight-overlay effect and
    the zoom controls.

JavaScript idioms are translated explicitly: `x || d` on a possibly
absent string is `jsOrString`, on a possibly absent number `Option.getD`,
absent object fields are `Option`.
-/

namespace DepGrapher

/-- JS `s || dflt` for a possibly absent string: an absent or empty string
is falsy and is replaced by the default. -/
def jsOrString (v : Option String) (dflt : String) : String :=
  match v with
  | some s => if s = "" then dflt else s
  | none => dflt

/-- The raw status payload returned by `getAnalysis` (`GET /api/analysis/:id`):
`status`, the optional `progress` percentage and the optional `error` text. -/
structure StatusResponse where
  status : String
  progress : Option Nat
  error : Option String
  deriving Repr, DecidableEq

/-- The result of one `await getAnalysis(analysisId)`: either a payload, or a
rejected promise carrying a message (a transport failure). -/
inductive FetchResult where
  | ok (s : StatusResponse)
  | rejected (msg : String)
  deriving Repr, DecidableEq

/-- How a call of `pollAnalysis` finishes: a returned payload, or a thrown
`Error` with its message. -/
inductive PollOutcome where
  | returned (s : StatusResponse)
  | thrown (msg : String)
  deriving Repr, DecidableEq

/-- The observable behaviour of one `pollAnalysis` call: its outcome, the
arguments of the successive `onProgress` invocations, and how many status
fetches were issued. -/
structure PollTrace where
  outcome : PollOutcome
  progressCalls : List StatusResponse
  fetchCount : Nat
  deriving Repr, DecidableEq

/-- The `while (attempts < maxAttempts)` loop of `pollAnalysis`
(src/frontend/src/services/api.js lines 150-167): fetch the status (an
uncaught rejection propagates), call `onProgress` with the raw payload,
return it if `status === "complete"`, throw `status.error || "Analysis
failed"` if `status === "error"`, otherwise sleep and loop; when the
attempt budget is exhausted, throw `"Analysis timeout"`. `i` is the index
of the next fetch, the fuel is the number of attempts left. -/
def pollLoop (fetch : Nat → FetchResult) (i : Nat) : Nat → PollTrace
  | 0 => { outcome := .thrown "Analysis timeout", progressCalls := [], fetchCount := 0 }
  | n + 1 =>
    match fetch i with
    | .rejected e => { outcome := .thrown e, progressCalls := [], fetchCount := 1 }
    | .ok s =>
      if s.status = "complete" then
        { outcome := .returned s, progressCalls := [s], fetchCount := 1 }
      else if s.status = "error" then
        { outcome := .thrown (jsOrString s.error "Analysis failed")
          progressCalls := [s], fetchCount := 1 }
      else
        let rest := pollLoop fetch (i + 1) n
        { outcome := rest.outcome
          progressCalls := s :: rest.progressCalls
          fetchCount := rest.fetchCount + 1 }

/-- `pollAnalysis(analysisId, onProgress, pollInterval, maxAttempts)`:
runs the loop from attempt 0 with the full budget. -/
def pollAnalysis (fetch : Nat → FetchResult) (maxAttempts : Nat) : PollTrace :=
  pollLoop fetch 0 maxAttempts

/-- Default `maxAttempts` of `pollAnalysis` in src/frontend/src/services/api.js. -/
def POLL_DEFAULT_MAX_ATTEMPTS : Nat := 150

/-- The `maxAttempts` the `useAnalysis` hook passes to `pollAnalysis`
("max 5 minutes" at 2000 ms per attempt). -/
def HOOK_MAX_ATTEMPTS : Nat := 150

/-- The poll interval (ms) the `useAnalysis` hook passes to `pollAnalysis`. -/
def HOOK_POLL_INTERVAL_MS : Nat := 2000

/-- A status payload is terminal when it reports `complete` or `error`. -/
def StatusResponse.isTerminal (s : StatusResponse) : Prop :=
  s.status = "complete" ∨ s.status = "error"

instance (s : StatusResponse) : Decidable s.isTerminal := by
  unfold StatusResponse.isTerminal; infer_instance

/-- The session state owned by the `useAnalysis` hook: the five `useState`
cells `loading`, `error`, `analysisId`, `status`, `progress`. -/
structure SessionState where
  loading : Bool
  error : Option String
  analysisId : Option String
  status : Option StatusResponse
  progress : Nat
  deriving Repr, DecidableEq

/-- The hook's initial state: `useState(false) / useState(null) /
useState(null) / useState(null) / useState(0)`. -/
def idleSession : SessionState :=
  { loading := false, error := none, analysisId := none, status := none, progress := 0 }

/-- The state-mutating events of the `useAnalysis` hook, in the order the
code can fire them: the synchronous head of `analyze` (set loading, clear
error, zero progress), the resolution of `startAnalysis` (store the id),
one `onProgress` callback from the poll loop (store status, store
`statusUpdate.progress || 0`), the resolution of `pollAnalysis`
(clear loading), the `catch` branch of `analyze` (store
`err.message || "Analysis failed"`, clear loading), and `reset`. -/
inductive SessionEvent where
  | analyzeStart
  | submitOk (id : String)
  | pollTick (s : StatusResponse)
  | pollDone
  | analyzeFailed (msg : Option String)
  | reset
  deriving Repr, DecidableEq

/-- One event applied to the hook state, exactly as the corresponding
`setXxx` calls in src/unnamed/part_004 perform it. `reset` (lines 74-80)
only writes the five cells back to their initial values; it carries no
cancellation flag and no request token, so a `pollTick` event after a
`reset` is applied like any other. -/
def sessionStep (st : SessionState) : SessionEvent → SessionState
  | .analyzeStart => { st with loading := true, error := none, progress := 0 }
  | .submitOk id => { st with analysisId := some id }
  | .pollTick s => { st with status := some s, progress := s.progress.getD 0 }
  | .pollDone => { st with loading := false }
  | .analyzeFailed m => { st with error := some (jsOrString m "Analysis failed"), loading := false }
  | .reset => idleSession

/-- Run the hook from its initial state through a list of events. -/
def sessionRun (evs : List SessionEvent) : SessionState :=
  evs.foldl sessionStep idleSession

/-- A `processing` poll payload with the given progress percentage. -/
def processingAt (p : Nat) : StatusResponse :=
  { status := "processing", progress := some p, error := none }

/-- A fetch oracle for which the very first status fetch rejects with a
transport error while the second attempt would already report `complete`. -/
def flakyFetch : Nat → FetchResult :=
  fun i => if i = 0 then .rejected "Network Error"
    else .ok { status := "complete", progress := some 100, error := none }

/-- A concrete response sequence: one `processing` response, then `complete`. -/
def respProcessThenDone : Nat → StatusResponse := fun i =>
  if i = 0 then processingAt 30
  else { status := "complete", progress := some 100, error := none }

/-- The `data` record of one graph node in the cytoscape export consumed by
the App (`id`, `label`, `full_path`). -/
structure NodeData where
  id : String
  label : String
  full_path : String
  deriving Repr, DecidableEq

/-- One element of `graphData.elements.nodes`: a wrapper holding `data`. -/
structure CyNode where
  data : NodeData
  deriving Repr, DecidableEq

/-- The `data` record of one graph edge (`source` and `target` node ids). -/
structure EdgeData where
  source : String
  target : String
  deriving Repr, DecidableEq

/-- One element of `graphData.elements.edges`. -/
structure CyEdge where
  data : EdgeData
  deriving Repr, DecidableEq

/-- `graphData.elements`; either list may be absent in a malformed payload. -/
structure GraphElements where
  nodes : Option (List CyNode)
  edges : Option (List CyEdge)
  deriving Repr, DecidableEq

/-- The payload of `getGraph`; `elements` may be absent. -/
structure GraphData where
  elements : Option GraphElements
  deriving Repr, DecidableEq

/-- One entry of the ranked risk-file list returned by `getRiskFiles`. -/
structure RiskFile where
  file_path : String
  risk_score : Nat
  risk_level : String
  blast_radius : Option Nat
  deriving Repr, DecidableEq

/-- The payload of `getBlastRadius`; the dependent lists may be absent
(the App guards them with `|| []`). -/
structure BlastResult where
  file_path : String
  direct_dependents : Option (List String)
  indirect_dependents : Option (List String)
  total_affected : Nat
  risk_score : Nat
  risk_level : String
  deriving Repr, DecidableEq

/-- The object stored in `selectedFile`: built from `node.data()` on a graph
click, or assembled (and possibly merged with graph-node data) on a
risk-list click; the risk fields are absent on plain node data. -/
structure FileData where
  id : String
  label : String
  full_path : String
  risk_score : Option Nat
  risk_level : Option String
  blast_radius_count : Option Nat
  deriving Repr, DecidableEq

/-- `node.data()` viewed as a `selectedFile` object (no risk fields). -/
def fileOfNodeData (n : NodeData) : FileData :=
  { id := n.id, label := n.label, full_path := n.full_path
    risk_score := none, risk_level := none, blast_radius_count := none }

/-- JS `file.file_path.split('/').pop()`. -/
def lastPathComponent (p : String) : String :=
  (p.splitOn "/").getLastD ""

/-- The `fileData` object `handleRiskFileClick` first builds from the
clicked risk entry (src/unnamed/part_002 lines 104-111). -/
def mkRiskFileData (f : RiskFile) : FileData :=
  { id := f.file_path, label := lastPathComponent f.file_path
    full_path := f.file_path, risk_score := some f.risk_score
    risk_level := some f.risk_level, blast_radius_count := f.blast_radius }

/-- `Object.assign(fileData, node.data)`: the node's `id`, `label` and
`full_path` overwrite the risk-entry values; the risk fields are not keys
of the node data and stay. -/
def mergeNodeData (fd : FileData) (n : NodeData) : FileData :=
  { fd with id := n.id, label := n.label, full_path := n.full_path }

/-- The graph-node lookup in `handleRiskFileClick` (lines 114-122):
guarded navigation through `graphData.elements.nodes`, then
`find(n => n.data.full_path === file.file_path)`. -/
def findGraphNode (gd : Option GraphData) (p : String) : Option NodeData :=
  match gd with
  | some g =>
    match g.elements with
    | some els =>
      match els.nodes with
      | some ns => (ns.find? (fun n => n.data.full_path == p)).map (fun n => n.data)
      | none => none
    | none => none
  | none => none

/-- The `selectedFile` object produced by a risk-list click: the risk-entry
object, merged with the matching graph node's data when one exists. -/
def riskClickFileData (gd : Option GraphData) (f : RiskFile) : FileData :=
  match findGraphNode gd f.file_path with
  | some n => mergeNodeData (mkRiskFileData f) n
  | none => mkRiskFileData f

/-- The highlight list `[id, ...(blast.direct_dependents || []),
...(blast.indirect_dependents || [])]`. -/
def affectedList (selId : String) (b : BlastResult) : List String :=
  selId :: (b.direct_dependents.getD [] ++ b.indirect_dependents.getD [])

/-- The degraded `BlastRadiusResult` the risk-click failure branch builds
from the clicked risk entry (lines 144-151). -/
def degradedBlast (f : RiskFile) : BlastResult :=
  { file_path := f.file_path, total_affected := f.blast_radius.getD 0
    risk_score := f.risk_score, risk_level := f.risk_level
    direct_dependents := some [], indirect_dependents := some [] }

/-- A blast-radius request issued but not yet resolved, remembering which
handler issued it and the values its continuation closed over. -/
inductive PendingReq where
  | fromNode (n : NodeData)
  | fromRisk (f : RiskFile) (fd : FileData)
  deriving Repr, DecidableEq

/-- How one blast-radius fetch resolves: a payload, or a rejection
(which the handlers catch). -/
inductive BlastReply where
  | ok (b : BlastResult)
  | failed
  deriving Repr, DecidableEq

/-- The App state the selection orchestration reads and writes: the
`useState` cells of App plus the list of issued blast-radius requests
(`pending`; a slot becomes `none` once its promise has settled). -/
structure AppState where
  analysisId : Option String
  graphData : Option GraphData
  riskFiles : List RiskFile
  selectedFile : Option FileData
  blastRadius : Option BlastResult
  highlightedNodes : List String
  activeTab : String
  pending : List (Option PendingReq)
  deriving Repr, DecidableEq

/-- The selection-orchestration events: the synchronous part of the two
click handlers, and the (possibly out-of-order) settlement of the `i`-th
issued blast-radius fetch. -/
inductive AppEvent where
  | nodeClick (n : NodeData)
  | riskClick (f : RiskFile)
  | blastResolve (i : Nat) (r : BlastReply)
  deriving Repr, DecidableEq

/-- One orchestration event applied to the App state, exactly as
`handleNodeClick` (lines 80-100) and `handleRiskFileClick` (lines 102-154)
perform it. A node click always issues the fetch; a risk click issues it
only when `analysisId` is set. Settlement applies the closed-over
continuation of that request unconditionally: the code compares no request
token, so even a request older than the latest selection is applied. On
success both paths store the payload and rebuild the highlight list; on
failure the node path stores `null` while the risk path stores the
degraded result built from the clicked risk entry. -/
def appStep (s : AppState) : AppEvent → AppState
  | .nodeClick n =>
    { s with
      selectedFile := some (fileOfNodeData n), activeTab := "details",
      pending := s.pending ++ [some (.fromNode n)] }
  | .riskClick f =>
    let fd := riskClickFileData s.graphData f
    let s1 := { s with selectedFile := some fd, activeTab := "details" }
    if s.analysisId.isSome then
      { s1 with pending := s1.pending ++ [some (.fromRisk f fd)] }
    else s1
  | .blastResolve i r =>
    match s.pending[i]? with
    | some (some req) =>
      let s1 := { s with pending := s.pending.set i none }
      match req, r with
      | .fromNode n, .ok b =>
        { s1 with blastRadius := some b, highlightedNodes := affectedList n.id b }
      | .fromNode _, .failed =>
        { s1 with blastRadius := none }
      | .fromRisk _ fd, .ok b =>
        { s1 with blastRadius := some b, highlightedNodes := affectedList fd.id b }
      | .fromRisk f _, .failed =>
        { s1 with blastRadius := some (degradedBlast f) }
    | _ => s

/-- Run the orchestration from a state through a list of events. -/
def appRun (s : AppState) (evs : List AppEvent) : AppState :=
  evs.foldl appStep s

/-- A completed-session App state with no selection yet. -/
def appState0 : AppState :=
  { analysisId := some "a1", graphData := none, riskFiles := []
    selectedFile := none, blastRadius := none, highlightedNodes := []
    activeTab := "risk", pending := [] }

/-- Concrete graph nodes and blast-radius payloads for the traces below. -/
def nodeA : NodeData := { id := "a", label := "a.py", full_path := "lib/a.py" }

def nodeB : NodeData := { id := "b", label := "b.py", full_path := "lib/b.py" }

def blastA : BlastResult :=
  { file_path := "lib/a.py", direct_dependents := some ["x"]
    indirect_dependents := some ["y"], total_affected := 2
    risk_score := 80, risk_level := "high" }

def blastB : BlastResult :=
  { file_path := "lib/b.py", direct_dependents := some ["z"]
    indirect_dependents := some [], total_affected := 1
    risk_score := 40, risk_level := "medium" }

/-- The spec's §8 scenario data: risk entry `lib/core.py` with blast-radius
count 4, and the matching graph node. -/
def coreRisk : RiskFile :=
  { file_path := "lib/core.py", risk_score := 90, risk_level := "critical"
    blast_radius := some 4 }

def coreNode : NodeData :=
  { id := "lib/core.py", label := "core.py", full_path := "lib/core.py" }

/-- `appState0` with the risk list (containing `coreRisk`) already loaded. -/
def appStateRisk : AppState := { appState0 with riskFiles := [coreRisk] }

/-- A rendered graph node inside the cytoscape engine instance: its id and
its current overlay classification (the `highlighted` / `dimmed` classes). -/
structure VNode where
  id : String
  highlighted : Bool
  dimmed : Bool
  deriving Repr, DecidableEq

/-- A rendered graph edge inside the engine instance. -/
structure VEdge where
  source : String
  target : String
  highlighted : Bool
  dimmed : Bool
  deriving Repr, DecidableEq

/-- The per-layout parameter defaults of `getLayoutConfig`
(src/unnamed/part_000 lines 430-462); absent keys are `none`. -/
structure LayoutConfig where
  animate : Bool
  animationDuration : Nat
  nodeDimensionsIncludeLabels : Option Bool := none
  idealEdgeLength : Option Nat := none
  nodeRepulsion : Option Nat := none
  gravity : Option ℚ := none
  avoidOverlap : Option Bool := none
  radius : Option Nat := none
  rows : Option Nat := none
  cols : Option Nat := none
  directed : Option Bool := none
  spacingFactor : Option ℚ := none
  deriving Repr, DecidableEq

/-- `getLayoutConfig`: the configuration table, with the `cose-bilkent`
entry as the `||` fallback for unknown names. `rows`/`cols` of the grid
layout are `undefined` in the source, hence `none`. -/
def getLayoutConfig (layoutName : String) : LayoutConfig :=
  if layoutName = "cose-bilkent" then
    { animate := true, animationDuration := 500
      nodeDimensionsIncludeLabels := some true, idealEdgeLength := some 100
      nodeRepulsion := some 4500, gravity := some 0.1 }
  else if layoutName = "circle" then
    { animate := true, animationDuration := 500
      avoidOverlap := some true, radius := some 200 }
  else if layoutName = "grid" then
    { animate := true, animationDuration := 500
      avoidOverlap := some true, rows := none, cols := none }
  else if layoutName = "breadthfirst" then
    { animate := true, animationDuration := 500
      directed := some true, spacingFactor := some 1.5 }
  else
    { animate := true, animationDuration := 500
      nodeDimensionsIncludeLabels := some true, idealEdgeLength := some 100
      nodeRepulsion := some 4500, gravity := some 0.1 }

/-- One live cytoscape engine instance: its elements with their overlay
classification, the view zoom, and the configuration it was created with
(`minZoom: 0.1, maxZoom: 3`, the initial layout). -/
structure Engine where
  nodes : List VNode
  edges : List VEdge
  zoom : ℚ
  minZoom : ℚ
  maxZoom : ℚ
  initLayout : String × LayoutConfig
  deriving Repr, DecidableEq

/-- `cytoscape({...})` (lines 194-205): elements rendered with no overlay
classes, default zoom 1, the configured zoom range, and the active layout
with its parameter defaults. -/
def initEngine (ns : List CyNode) (es : List CyEdge) (layoutName : String) : Engine :=
  { nodes := ns.map (fun n => { id := n.data.id, highlighted := false, dimmed := false })
    edges := es.map (fun e =>
      { source := e.data.source, target := e.data.target
        highlighted := false, dimmed := false })
    zoom := 1, minZoom := 1/10, maxZoom := 3
    initLayout := (layoutName, getLayoutConfig layoutName) }

/-- The guards of the rebuild effect (lines 180-189): `graphData` present,
`graphData.elements` present, a present and non-empty node list; on success
the node list and the edge list (absent edges render as none). -/
def validElements (gd : Option GraphData) : Option (List CyNode × List CyEdge) :=
  match gd with
  | none => none
  | some g =>
    match g.elements with
    | none => none
    | some els =>
      match els.nodes with
      | none => none
      | some ns => if ns.length = 0 then none else some (ns, els.edges.getD [])

/-- `removeClass('highlighted dimmed')` on a node. -/
def resetNode (v : VNode) : VNode := { v with highlighted := false, dimmed := false }

/-- `removeClass('highlighted dimmed')` on an edge. -/
def resetEdge (w : VEdge) : VEdge := { w with highlighted := false, dimmed := false }

/-- The ids of the `highlighted` node collection:
`cy.nodes().filter(node => highlightedNodes.includes(node.id()))` taken
over the freshly reset nodes. -/
def highlightNodeIds (e : Engine) (hl : List String) : List String :=
  (((e.nodes.map resetNode).filter (fun v => hl.contains v.id)).map (fun v => v.id))

/-- The highlight-overlay effect body (lines 227-251) applied to a live
engine: reset all classes; when the highlight list is non-empty, mark the
member nodes `highlighted` and the rest `dimmed`, dim every edge, then
promote the edges connected to a highlighted node
(`highlighted.connectedEdges()` — edges with at least one endpoint in the
collection) from `dimmed` to `highlighted`. -/
def applyHighlight (e : Engine) (hl : List String) : Engine :=
  let nodes0 := e.nodes.map resetNode
  let edges0 := e.edges.map resetEdge
  if 0 < hl.length then
    let hlIds := highlightNodeIds e hl
    let nodes1 := nodes0.map (fun v =>
      if hl.contains v.id then { v with highlighted := true } else { v with dimmed := true })
    let edges1 := edges0.map (fun w => { w with dimmed := true })
    let edges2 := edges1.map (fun w =>
      if hlIds.contains w.source || hlIds.contains w.target then
        { w with dimmed := false, highlighted := true }
      else w)
    { e with nodes := nodes1, edges := edges2 }
  else
    { e with nodes := nodes0, edges := edges0 }

/-- `cy.zoom(z)`: the engine clamps the requested level to the configured
`[minZoom, maxZoom]` range. -/
def cyZoomSet (e : Engine) (z : ℚ) : Engine :=
  { e with zoom := min e.maxZoom (max e.minZoom z) }

/-- The GraphViewer component state: the engine ref (`cyRef`), the `layout`
`useState` cell, plus the observable construct/destroy counters and the
log of explicit reposition (`cy.layout(...).run()`) calls. -/
structure GVState where
  cy : Option Engine
  layout : String
  constructCount : Nat
  destroyCount : Nat
  layoutRuns : List (String × LayoutConfig)
  deriving Repr, DecidableEq

/-- The freshly mounted component: no engine, layout `cose-bilkent`. -/
def initialGVState : GVState :=
  { cy := none, layout := "cose-bilkent", constructCount := 0
    destroyCount := 0, layoutRuns := [] }

/-- The rebuild effect's cleanup (lines 218-223): destroy the engine when
one is live, a no-op otherwise. -/
def teardown (s : GVState) : GVState :=
  match s.cy with
  | some _ => { s with cy := none, destroyCount := s.destroyCount + 1 }
  | none => s

/-- One run of the rebuild effect (lines 173-224): React first runs the
previous cleanup, then the body, which skips construction entirely when
the guards reject the data. -/
def rebuildEffect (s : GVState) (gd : Option GraphData) : GVState :=
  let s0 := teardown s
  match validElements gd with
  | some (ns, es) =>
    { s0 with
      cy := some (initEngine ns es s0.layout)
      constructCount := s0.constructCount + 1 }
  | none => s0

/-- `handleChangeLayout` (lines 285-293) together with the React re-render
it triggers: `setLayout(newLayout)` is scheduled, the reposition call runs
at once on the existing instance with the new layout's parameter defaults,
and then — because the rebuild effect's dependency array includes
`layout` — the effect re-runs (cleanup, then rebuild) whenever the layout
name actually changed. `layoutRunStep` is the synchronous handler body:
`if (cyRef.current) cyRef.current.layout({name, ...config}).run()`. -/
def layoutRunStep (s : GVState) (newLayout : String) : GVState :=
  match s.cy with
  | some _ => { s with layoutRuns := s.layoutRuns ++ [(newLayout, getLayoutConfig newLayout)] }
  | none => s

def handleChangeLayout (s : GVState) (gd : Option GraphData) (newLayout : String) : GVState :=
  if newLayout = s.layout then layoutRunStep s newLayout
  else rebuildEffect { layoutRunStep s newLayout with layout := newLayout } gd

/-- The highlight effect (lines 227-251): a no-op without a live engine,
otherwise pure overlay mutation on the existing instance. -/
def highlightEffect (s : GVState) (hl : List String) : GVState :=
  match s.cy with
  | some e => { s with cy := some (applyHighlight e hl) }
  | none => s

/-- `handleZoomIn` (lines 257-261): multiply the current zoom by 1.2. -/
def handleZoomIn (s : GVState) : GVState :=
  match s.cy with
  | some e => { s with cy := some (cyZoomSet e (e.zoom * 1.2)) }
  | none => s

/-- `handleZoomOut` (lines 263-267): multiply the current zoom by 0.8. -/
def handleZoomOut (s : GVState) : GVState :=
  match s.cy with
  | some e => { s with cy := some (cyZoomSet e (e.zoom * 0.8)) }
  | none => s

/-- The external events the GraphViewer reacts to. -/
inductive GVEvent where
  | rebuild (gd : Option GraphData)
  | changeLayout (gd : Option GraphData) (name : String)
  | highlight (hl : List String)
  | zoomIn
  | zoomOut
  | unmount
  deriving Repr, DecidableEq

/-- One GraphViewer event. -/
def gvStep (s : GVState) : GVEvent → GVState
  | .rebuild gd => rebuildEffect s gd
  | .changeLayout gd name => handleChangeLayout s gd name
  | .highlight hl => highlightEffect s hl
  | .zoomIn => handleZoomIn s
  | .zoomOut => handleZoomOut s
  | .unmount => teardown s

/-- Run the GraphViewer from mount through a list of events. -/
def gvRun (evs : List GVEvent) : GVState :=
  evs.foldl gvStep initialGVState

/-- The number of live engine instances a state holds (0 or 1 by
construction of `cyRef`). -/
def liveInstances (s : GVState) : Nat :=
  if s.cy.isSome then 1 else 0

/-- A 50-node graph payload (the spec's layout-switch scenario size). -/
def demoNodes : List CyNode :=
  (List.range 50).map (fun i =>
    { data := { id := toString i, label := toString i, full_path := toString i } })

def demoGraph : GraphData :=
  { elements := some { nodes := some demoNodes, edges := some [] } }

/-- The component state after mounting and rendering `demoGraph`. -/
def renderedState : GVState := gvRun [.rebuild (some demoGraph)]

/-- The engine instance `renderedState` holds. -/
def demoEngine : Engine := initEngine demoNodes [] "cose-bilkent"

/-- The count invariant: constructions = destructions + live instances. -/
def gvCountInvariant (s : GVState) : Prop :=
  s.constructCount = s.destroyCount + liveInstances s

/-- A two-node engine with a single edge from `a` to `b`. -/
def abEngine : Engine :=
  initEngine
    [{ data := { id := "a", label := "a", full_path := "a" } },
     { data := { id := "b", label := "b", full_path := "b" } }]
    [{ data := { source := "a", target := "b" } }]
    "cose-bilkent"

/-- Claim C2: after `reset()` during an in-flight poll, the session is
expected to stay idle. The code violates this: `reset` merely writes the
initial values back and cancels nothing, so the next `onProgress` tick of
the still-running poll loop overwrites `status` and `progress` again. The
trace below issues `analyze`, receives one tick at 30 %, resets, then the
in-flight poll delivers a tick at 70 %: the final state has
`status = processing/70`, not the idle state the claim requires (the same
trace without the late tick does end idle). -/
theorem C2_late_poll_tick_mutates_after_reset :
    sessionRun [.analyzeStart, .submitOk "a1", .pollTick (processingAt 30), .reset,
        .pollTick (processingAt 70)] =
      { loading := false, error := none, analysisId := none
        status := some (processingAt 70), progress := 70 }
    ∧ sessionRun [.analyzeStart, .submitOk "a1", .pollTick (processingAt 30), .reset] =
        idleSession
    ∧ sessionRun [.analyzeStart, .submitOk "a1", .pollTick (processingAt 30), .reset,
        .pollTick (processingAt 70)] ≠ idleSession := by
  refine ⟨rfl, rfl, ?_⟩
  decide

/-- Claim C4: a transient fetch failure is expected to consume one retry
attempt and let the loop continue. The code has no try/catch around
`await getAnalysis(...)`, so the rejection propagates out of
`pollAnalysis` at once: with the default budget of 150 attempts and a
single transport blip on attempt 0, polling ends immediately with the
thrown transport error, zero `onProgress` calls and only one fetch issued,
even though attempt 1 would have returned `complete`. -/
theorem C4_transient_fetch_failure_terminates_polling :
    pollAnalysis flakyFetch POLL_DEFAULT_MAX_ATTEMPTS =
      { outcome := .thrown "Network Error", progressCalls := [], fetchCount := 1 }
    ∧ flakyFetch 1 = .ok { status := "complete", progress := some 100, error := none }
    ∧ 1 < POLL_DEFAULT_MAX_ATTEMPTS := by
  refine ⟨rfl, rfl, ?_⟩
  decide

/-- Unfolding of one successful-fetch iteration of the poll loop. -/
theorem pollLoop_succ_ok (resp : Nat → StatusResponse) (i n : Nat) :
    pollLoop (fun m => .ok (resp m)) i (n + 1) =
      if (resp i).status = "complete" then
        { outcome := .returned (resp i), progressCalls := [resp i], fetchCount := 1 }
      else if (resp i).status = "error" then
        { outcome := .thrown (jsOrString (resp i).error "Analysis failed")
          progressCalls := [resp i], fetchCount := 1 }
      else
        { outcome := (pollLoop (fun m => .ok (resp m)) (i + 1) n).outcome
          progressCalls := resp i :: (pollLoop (fun m => .ok (resp m)) (i + 1) n).progressCalls
          fetchCount := (pollLoop (fun m => .ok (resp m)) (i + 1) n).fetchCount + 1 } := rfl

/-- On an all-successful fetch oracle whose first `k` responses (from
position `i`) are non-terminal, the loop's behaviour is decided by
response `i + k` when it lies within the remaining budget. -/
theorem pollLoop_firstTerminal (resp : Nat → StatusResponse) (k : Nat) :
    ∀ i n, k < n → (∀ j, j < k → ¬ (resp (i + j)).isTerminal) →
      (((resp (i + k)).status = "complete" →
          pollLoop (fun m => .ok (resp m)) i n =
            { outcome := .returned (resp (i + k))
              progressCalls := (List.range (k + 1)).map (fun j => resp (i + j))
              fetchCount := k + 1 })
       ∧ ((resp (i + k)).status = "error" →
          pollLoop (fun m => .ok (resp m)) i n =
            { outcome := .thrown (jsOrString (resp (i + k)).error "Analysis failed")
              progressCalls := (List.range (k + 1)).map (fun j => resp (i + j))
              fetchCount := k + 1 })) := by
  induction k with
  | zero =>
    intro i n hn hnt
    obtain ⟨n', rfl⟩ : ∃ n', n = n' + 1 := ⟨n - 1, by omega⟩
    constructor
    · intro hc
      simp only [Nat.add_zero] at hc ⊢
      rw [pollLoop_succ_ok, if_pos hc]
      simp [List.range_succ]
    · intro he
      simp only [Nat.add_zero] at he ⊢
      have hnc : ¬ (resp i).status = "complete" := by
        rw [he]; decide
      rw [pollLoop_succ_ok, if_neg hnc, if_pos he]
      simp [List.range_succ]
  | succ k ih =>
    intro i n hn hnt
    obtain ⟨n', rfl⟩ : ∃ n', n = n' + 1 := ⟨n - 1, by omega⟩
    have h0 : ¬ (resp i).isTerminal := by
      have := hnt 0 (by omega)
      simpa using this
    have hnc : ¬ (resp i).status = "complete" := fun h => h0 (Or.inl h)
    have hne : ¬ (resp i).status = "error" := fun h => h0 (Or.inr h)
    have hnt' : ∀ j, j < k → ¬ (resp (i + 1 + j)).isTerminal := by
      intro j hj
      have := hnt (j + 1) (by omega)
      have harith : i + (j + 1) = i + 1 + j := by omega
      rwa [harith] at this
    have ih' := ih (i + 1) n' (by omega) hnt'
    have harith : i + 1 + k = i + (k + 1) := by omega
    have hlist : (List.range (k + 1 + 1)).map (fun j => resp (i + j)) =
        resp i :: (List.range (k + 1)).map (fun j => resp (i + 1 + j)) := by
      rw [List.range_succ_eq_map, List.map_cons, List.map_map]
      refine congrArg₂ _ (by simp) ?_
      refine List.map_congr_left ?_
      intro a _
      simp only [Function.comp_apply]
      congr 1
      omega
    constructor
    · intro hc
      rw [harith] at ih'
      have heq := ih'.1 hc
      rw [pollLoop_succ_ok, if_neg hnc, if_neg hne, heq, hlist]
    · intro he
      rw [harith] at ih'
      have heq := ih'.2 he
      rw [pollLoop_succ_ok, if_neg hnc, if_neg hne, heq, hlist]

/-- When every response within the remaining budget is non-terminal, the
loop exhausts the budget and throws the timeout error. -/
theorem pollLoop_timeout (resp : Nat → StatusResponse) :
    ∀ n i, (∀ j, j < n → ¬ (resp (i + j)).isTerminal) →
      pollLoop (fun m => .ok (resp m)) i n =
        { outcome := .thrown "Analysis timeout"
          progressCalls := (List.range n).map (fun j => resp (i + j))
          fetchCount := n } := by
  intro n
  induction n with
  | zero => intro i _; simp [pollLoop]
  | succ n ih =>
    intro i h
    have h0 : ¬ (resp i).isTerminal := by
      have := h 0 (by omega)
      simpa using this
    have hnc : ¬ (resp i).status = "complete" := fun hx => h0 (Or.inl hx)
    have hne : ¬ (resp i).status = "error" := fun hx => h0 (Or.inr hx)
    have h' : ∀ j, j < n → ¬ (resp (i + 1 + j)).isTerminal := by
      intro j hj
      have := h (j + 1) (by omega)
      have harith : i + (j + 1) = i + 1 + j := by omega
      rwa [harith] at this
    have hlist : (List.range (n + 1)).map (fun j => resp (i + j)) =
        resp i :: (List.range n).map (fun j => resp (i + 1 + j)) := by
      rw [List.range_succ_eq_map, List.map_cons, List.map_map]
      refine congrArg₂ _ (by simp) ?_
      refine List.map_congr_left ?_
      intro a _
      simp only [Function.comp_apply]
      congr 1
      omega
    rw [pollLoop_succ_ok, if_neg hnc, if_neg hne, ih (i + 1) h', hlist]

/-- Claim C3: on every sequence of successfully fetched status responses,
`pollAnalysis` fetches repeatedly, calls `onProgress` with each raw
payload including the terminal one, returns the payload as soon as
`status = "complete"`, throws the server's error message (defaulted when
absent or empty) as soon as `status = "error"`, and throws the timeout
error after exactly `maxAttempts` fetches when no terminal status occurs,
so the loop always ends within `maxAttempts` attempts. -/
theorem C3_pollAnalysis_contract (resp : Nat → StatusResponse) (maxAttempts : Nat) :
    (∀ k, k < maxAttempts → (∀ j, j < k → ¬ (resp j).isTerminal) →
      (((resp k).status = "complete" →
          pollAnalysis (fun m => .ok (resp m)) maxAttempts =
            { outcome := .returned (resp k)
              progressCalls := (List.range (k + 1)).map resp
              fetchCount := k + 1 })
       ∧ ((resp k).status = "error" →
          pollAnalysis (fun m => .ok (resp m)) maxAttempts =
            { outcome := .thrown (jsOrString (resp k).error "Analysis failed")
              progressCalls := (List.range (k + 1)).map resp
              fetchCount := k + 1 })))
    ∧ ((∀ j, j < maxAttempts → ¬ (resp j).isTerminal) →
        pollAnalysis (fun m => .ok (resp m)) maxAttempts =
          { outcome := .thrown "Analysis timeout"
            progressCalls := (List.range maxAttempts).map resp
            fetchCount := maxAttempts }) := by
  constructor
  · intro k hk hnt
    have h := pollLoop_firstTerminal resp k 0 maxAttempts hk
      (by intro j hj; simpa using hnt j hj)
    simp only [Nat.zero_add] at h
    simpa [pollAnalysis] using h
  · intro h
    have := pollLoop_timeout resp maxAttempts 0 (by intro j hj; simpa using h j hj)
    simpa [pollAnalysis] using this

/-- Witness for claim C3 at a concrete input: with one non-terminal
response followed by a `complete` one, polling returns the `complete`
payload after two fetches and two `onProgress` calls. -/
theorem C3_pollAnalysis_contract_witness :
    pollAnalysis (fun m => .ok (respProcessThenDone m)) 150 =
      { outcome := .returned (respProcessThenDone 1)
        progressCalls := (List.range 2).map respProcessThenDone
        fetchCount := 2 } :=
  ((C3_pollAnalysis_contract respProcessThenDone 150).1 1 (by decide)
    (fun j hj => by
      have hj0 : j = 0 := by omega
      subst hj0
      decide)).1 (by decide)

/-- Claim C1: with selection S1 (node `a`) issued before S2 (node `b`) and
S2's blast-radius fetch resolving first, the final `SelectionContext` is
expected to reflect S2 only. The code violates this: neither handler
attaches a request token, so when S1's stale response arrives last it is
applied — the final state keeps S2's `selectedFile` but stores S1's
`BlastRadiusResult` and S1's highlight set. -/
theorem C1_stale_blast_response_is_applied :
    appRun appState0 [.nodeClick nodeA, .nodeClick nodeB,
        .blastResolve 1 (.ok blastB), .blastResolve 0 (.ok blastA)] =
      { analysisId := some "a1", graphData := none, riskFiles := []
        selectedFile := some (fileOfNodeData nodeB)
        blastRadius := some blastA
        highlightedNodes := ["a", "x", "y"]
        activeTab := "details", pending := [none, none] }
    ∧ blastA ≠ blastB
    ∧ affectedList nodeA.id blastA ≠ affectedList nodeB.id blastB := by
  refine ⟨rfl, ?_, ?_⟩ <;> decide

/-- Claim C5 counterexample: the blast-radius fetch for the graph-node
selection of `lib/core.py` fails while the risk entry for that very file
(blast-radius count 4) is locally known; the claim requires a degraded
result with `totalAffected = 4`, but `handleNodeClick`'s catch branch
stores `null`, and therefore also behaves differently from the risk-click
path on the same underlying file. -/
theorem C5_node_click_failure_stores_null :
    (appRun appStateRisk [.nodeClick coreNode, .blastResolve 0 .failed]).blastRadius = none
    ∧ (appRun appStateRisk [.nodeClick coreNode, .blastResolve 0 .failed]).selectedFile =
        some (fileOfNodeData coreNode)
    ∧ coreRisk ∈ appStateRisk.riskFiles
    ∧ coreRisk.file_path = coreNode.full_path
    ∧ (appRun appStateRisk [.riskClick coreRisk, .blastResolve 0 .failed]).blastRadius =
        some (degradedBlast coreRisk)
    ∧ (degradedBlast coreRisk).total_affected = 4 := by
  refine ⟨rfl, rfl, ?_, rfl, rfl, rfl⟩
  simp [appStateRisk, appState0]

/-- Claim C5 amended: on a blast-radius fetch failure the two selection
paths diverge. For any state whose `analysisId` is set: the risk-click
path stores the degraded result built from the clicked entry
(`totalAffected` = the entry's blast-radius count or 0, empty dependent
lists) and the node-click path stores `null` regardless of any locally
known risk data; neither failure path touches the highlight set. -/
theorem C5_failure_degradation_per_path (s : AppState) (f : RiskFile) (n : NodeData)
    (a : String) (h : s.analysisId = some a) :
    (appRun s [.riskClick f, .blastResolve s.pending.length .failed]).blastRadius =
        some (degradedBlast f)
    ∧ (appRun s [.riskClick f, .blastResolve s.pending.length .failed]).highlightedNodes =
        s.highlightedNodes
    ∧ (appRun s [.nodeClick n, .blastResolve s.pending.length .failed]).blastRadius = none
    ∧ (appRun s [.nodeClick n, .blastResolve s.pending.length .failed]).highlightedNodes =
        s.highlightedNodes := by
  have hsome : s.analysisId.isSome = true := by rw [h]; rfl
  refine ⟨?_, ?_, ?_, ?_⟩ <;>
    simp [appRun, appStep, hsome, List.getElem?_concat_length]

/-- Witness for the amended claim C5 at a concrete state. -/
theorem C5_failure_degradation_per_path_witness :
    (appRun appStateRisk [.riskClick coreRisk, .blastResolve 0 .failed]).blastRadius =
        some (degradedBlast coreRisk)
    ∧ (appRun appStateRisk [.riskClick coreRisk, .blastResolve 0 .failed]).highlightedNodes =
        appStateRisk.highlightedNodes
    ∧ (appRun appStateRisk [.nodeClick coreNode, .blastResolve 0 .failed]).blastRadius = none
    ∧ (appRun appStateRisk [.nodeClick coreNode, .blastResolve 0 .failed]).highlightedNodes =
        appStateRisk.highlightedNodes :=
  C5_failure_degradation_per_path appStateRisk coreRisk coreNode "a1" rfl

/-- Claim C8 counterexample: select node `a` (fetch succeeds, highlight
becomes `{a, x, y}`), then select node `b` whose fetch fails. A selection
exists (node `b`) but the highlight set is still the previous one and does
not contain the selected id `b`. -/
theorem C8_selection_without_selected_id_in_highlight :
    (appRun appState0 [.nodeClick nodeA, .blastResolve 0 (.ok blastA),
        .nodeClick nodeB, .blastResolve 1 .failed]).selectedFile =
      some (fileOfNodeData nodeB)
    ∧ (appRun appState0 [.nodeClick nodeA, .blastResolve 0 (.ok blastA),
        .nodeClick nodeB, .blastResolve 1 .failed]).highlightedNodes = ["a", "x", "y"]
    ∧ (fileOfNodeData nodeB).id = "b"
    ∧ "b" ∉ (["a", "x", "y"] : List String) := by
  refine ⟨rfl, rfl, rfl, ?_⟩
  decide

/-- Claim C8 amended: when the blast-radius fetch of the most recent
selection succeeds (and no later event intervenes), the highlight set is
exactly `{selected id} ∪ directDependents ∪ indirectDependents` — in
particular it contains the selected id — on both selection paths; when
that fetch fails, the highlight set is left unchanged and need not contain
the selected id. -/
theorem C8_highlight_exact_on_success (s : AppState) (n : NodeData) (f : RiskFile)
    (b : BlastResult) (a : String) (h : s.analysisId = some a) :
    ((appRun s [.nodeClick n, .blastResolve s.pending.length (.ok b)]).selectedFile =
        some (fileOfNodeData n)
      ∧ (appRun s [.nodeClick n, .blastResolve s.pending.length (.ok b)]).highlightedNodes =
          affectedList n.id b
      ∧ ∀ x, x ∈ (appRun s [.nodeClick n,
            .blastResolve s.pending.length (.ok b)]).highlightedNodes ↔
          (x = n.id ∨ x ∈ b.direct_dependents.getD [] ∨ x ∈ b.indirect_dependents.getD []))
    ∧ ((appRun s [.riskClick f, .blastResolve s.pending.length (.ok b)]).selectedFile =
        some (riskClickFileData s.graphData f)
      ∧ (appRun s [.riskClick f, .blastResolve s.pending.length (.ok b)]).highlightedNodes =
          affectedList (riskClickFileData s.graphData f).id b
      ∧ ∀ x, x ∈ (appRun s [.riskClick f,
            .blastResolve s.pending.length (.ok b)]).highlightedNodes ↔
          (x = (riskClickFileData s.graphData f).id ∨ x ∈ b.direct_dependents.getD []
            ∨ x ∈ b.indirect_dependents.getD []))
    ∧ (appRun s [.nodeClick n, .blastResolve s.pending.length .failed]).highlightedNodes =
        s.highlightedNodes := by
  have hsome : s.analysisId.isSome = true := by rw [h]; rfl
  refine ⟨⟨?_, ?_, ?_⟩, ⟨?_, ?_, ?_⟩, ?_⟩ <;>
    simp [appRun, appStep, hsome, List.getElem?_concat_length, affectedList]

/-- Witness for the amended claim C8 at a concrete state. -/
theorem C8_highlight_exact_on_success_witness :
    ((appRun appState0 [.nodeClick nodeA, .blastResolve 0 (.ok blastA)]).selectedFile =
        some (fileOfNodeData nodeA)
      ∧ (appRun appState0 [.nodeClick nodeA, .blastResolve 0 (.ok blastA)]).highlightedNodes =
          affectedList nodeA.id blastA
      ∧ ∀ x, x ∈ (appRun appState0 [.nodeClick nodeA,
            .blastResolve 0 (.ok blastA)]).highlightedNodes ↔
          (x = nodeA.id ∨ x ∈ blastA.direct_dependents.getD []
            ∨ x ∈ blastA.indirect_dependents.getD []))
    ∧ ((appRun appState0 [.riskClick coreRisk, .blastResolve 0 (.ok blastA)]).selectedFile =
        some (riskClickFileData appState0.graphData coreRisk)
      ∧ (appRun appState0 [.riskClick coreRisk,
            .blastResolve 0 (.ok blastA)]).highlightedNodes =
          affectedList (riskClickFileData appState0.graphData coreRisk).id blastA
      ∧ ∀ x, x ∈ (appRun appState0 [.riskClick coreRisk,
            .blastResolve 0 (.ok blastA)]).highlightedNodes ↔
          (x = (riskClickFileData appState0.graphData coreRisk).id
            ∨ x ∈ blastA.direct_dependents.getD []
            ∨ x ∈ blastA.indirect_dependents.getD []))
    ∧ (appRun appState0 [.nodeClick nodeA, .blastResolve 0 .failed]).highlightedNodes =
        appState0.highlightedNodes :=
  C8_highlight_exact_on_success appState0 nodeA coreRisk blastA "a1" rfl

theorem teardown_cy_none (s : GVState) : (teardown s).cy = none := by
  cases h : s.cy <;> simp [teardown, h]

theorem teardown_counts (s : GVState) :
    (teardown s).constructCount = s.constructCount
    ∧ (teardown s).destroyCount = s.destroyCount + liveInstances s := by
  cases h : s.cy <;> simp [teardown, liveInstances, h]

theorem teardown_invariant (s : GVState) (h : gvCountInvariant s) :
    gvCountInvariant (teardown s) := by
  unfold gvCountInvariant at *
  cases hcy : s.cy <;> simp [teardown, liveInstances, hcy] at h ⊢ <;> omega

theorem rebuildEffect_invariant (s : GVState) (gd : Option GraphData)
    (h : gvCountInvariant s) : gvCountInvariant (rebuildEffect s gd) := by
  have ht := teardown_invariant s h
  have hcy := teardown_cy_none s
  unfold gvCountInvariant at *
  unfold rebuildEffect
  cases hv : validElements gd with
  | none => simpa using ht
  | some p =>
    simp [hv, liveInstances]
    simp [liveInstances, hcy] at ht
    omega

theorem layoutRunStep_invariant (s : GVState) (name : String) (h : gvCountInvariant s) :
    gvCountInvariant (layoutRunStep s name) := by
  cases hcy : s.cy <;>
    simpa [layoutRunStep, gvCountInvariant, liveInstances, hcy] using h

theorem handleChangeLayout_invariant (s : GVState) (gd : Option GraphData)
    (name : String) (h : gvCountInvariant s) :
    gvCountInvariant (handleChangeLayout s gd name) := by
  unfold handleChangeLayout
  by_cases hn : name = s.layout
  · rw [if_pos hn]
    exact layoutRunStep_invariant s name h
  · rw [if_neg hn]
    refine rebuildEffect_invariant _ gd ?_
    have hl := layoutRunStep_invariant s name h
    simpa [gvCountInvariant, liveInstances] using hl

theorem gvStep_invariant (s : GVState) (e : GVEvent) (h : gvCountInvariant s) :
    gvCountInvariant (gvStep s e) := by
  cases e with
  | rebuild gd => exact rebuildEffect_invariant s gd h
  | changeLayout gd name => exact handleChangeLayout_invariant s gd name h
  | highlight hl =>
    show gvCountInvariant (highlightEffect s hl)
    cases hcy : s.cy <;>
      simpa [highlightEffect, gvCountInvariant, liveInstances, hcy] using h
  | zoomIn =>
    show gvCountInvariant (handleZoomIn s)
    cases hcy : s.cy <;>
      simpa [handleZoomIn, gvCountInvariant, liveInstances, hcy] using h
  | zoomOut =>
    show gvCountInvariant (handleZoomOut s)
    cases hcy : s.cy <;>
      simpa [handleZoomOut, gvCountInvariant, liveInstances, hcy] using h
  | unmount => exact teardown_invariant s h

theorem gvRun_invariant (evs : List GVEvent) : gvCountInvariant (gvRun evs) := by
  have key : ∀ (l : List GVEvent) (s : GVState),
      gvCountInvariant s → gvCountInvariant (l.foldl gvStep s) := by
    intro l
    induction l with
    | nil => intro s h; exact h
    | cons e l ih => intro s h; exact ih _ (gvStep_invariant s e h)
  refine key evs initialGVState ?_
  unfold gvCountInvariant initialGVState liveInstances
  simp

/-- Claim C9: along every event trace the construct and destroy counts
differ by exactly the number of live instances, which is 0 or 1 — no
two live engine instances ever coexist; every rebuild destroys the
live instance first (exactly `liveInstances s` teardown calls happen
before any construction); and when the input graph data is rejected by
the guards (absent data, absent elements, absent or zero-length node
list) the rebuild performs no construction and leaves no instance. -/
theorem C9_at_most_one_live_engine :
    (∀ evs : List GVEvent,
      (gvRun evs).constructCount = (gvRun evs).destroyCount + liveInstances (gvRun evs)
      ∧ (gvRun evs).constructCount ≤ (gvRun evs).destroyCount + 1)
    ∧ (∀ (s : GVState) (gd : Option GraphData),
        (rebuildEffect s gd).destroyCount = s.destroyCount + liveInstances s)
    ∧ (∀ (s : GVState) (gd : Option GraphData), validElements gd = none →
        (rebuildEffect s gd).constructCount = s.constructCount
        ∧ (rebuildEffect s gd).cy = none) := by
  refine ⟨?_, ?_, ?_⟩
  · intro evs
    have h := gvRun_invariant evs
    unfold gvCountInvariant at h
    constructor
    · exact h
    · unfold liveInstances at h
      by_cases hcy : (gvRun evs).cy.isSome <;> simp [hcy] at h <;> omega
  · intro s gd
    unfold rebuildEffect
    cases hv : validElements gd with
    | none => simpa using (teardown_counts s).2
    | some p => simpa [hv] using (teardown_counts s).2
  · intro s gd hgd
    unfold rebuildEffect
    rw [hgd]
    exact ⟨(teardown_counts s).1, teardown_cy_none s⟩

/-- Witness for claim C9 at concrete inputs: one mount-and-render trace
satisfies the count equation, and a rebuild with absent graph data on the
rendered state constructs nothing and leaves no live instance. -/
theorem C9_at_most_one_live_engine_witness :
    (gvRun [.rebuild (some demoGraph)]).constructCount =
        (gvRun [.rebuild (some demoGraph)]).destroyCount
          + liveInstances (gvRun [.rebuild (some demoGraph)])
    ∧ (rebuildEffect renderedState none).constructCount = renderedState.constructCount
    ∧ (rebuildEffect renderedState none).cy = none :=
  ⟨(C9_at_most_one_live_engine.1 [.rebuild (some demoGraph)]).1,
    (C9_at_most_one_live_engine.2.2 renderedState none rfl).1,
    (C9_at_most_one_live_engine.2.2 renderedState none rfl).2⟩

/-- Claim C6 counterexample: with the 50-node graph rendered (construct
count 1, destroy count 0), switching the layout from the force-directed
default to "grid" issues the reposition call with the grid defaults but
ALSO tears the engine down and constructs a new instance — the construct
and destroy counts both change, contradicting the claim that they stay
unchanged. -/
theorem C6_layout_switch_changes_instance_counts :
    renderedState.cy = some demoEngine
    ∧ demoEngine.nodes.length = 50
    ∧ renderedState.constructCount = 1
    ∧ renderedState.destroyCount = 0
    ∧ (handleChangeLayout renderedState (some demoGraph) "grid").constructCount = 2
    ∧ (handleChangeLayout renderedState (some demoGraph) "grid").destroyCount = 1
    ∧ (handleChangeLayout renderedState (some demoGraph) "grid").layoutRuns =
        [("grid", getLayoutConfig "grid")] :=
  ⟨rfl, rfl, rfl, rfl, rfl, rfl, rfl⟩

/-- Claim C6 amended: switching to a different layout name while an engine
is live does issue exactly one reposition call on the existing instance
with the named layout's configured parameter defaults, but — because the
rebuild effect's dependency array includes `layout` — it additionally
tears down the engine and constructs a fresh instance under the new
layout: the construct and destroy counts each increase by one. -/
theorem C6_layout_switch_repositions_then_rebuilds (s : GVState) (e : Engine)
    (gd : GraphData) (name : String) (ns : List CyNode) (es : List CyEdge)
    (hcy : s.cy = some e) (hne : ¬ name = s.layout)
    (hv : validElements (some gd) = some (ns, es)) :
    (handleChangeLayout s (some gd) name).layoutRuns =
        s.layoutRuns ++ [(name, getLayoutConfig name)]
    ∧ (handleChangeLayout s (some gd) name).constructCount = s.constructCount + 1
    ∧ (handleChangeLayout s (some gd) name).destroyCount = s.destroyCount + 1
    ∧ (handleChangeLayout s (some gd) name).cy = some (initEngine ns es name)
    ∧ (handleChangeLayout s (some gd) name).layout = name := by
  refine ⟨?_, ?_, ?_, ?_, ?_⟩ <;>
    simp [handleChangeLayout, layoutRunStep, hcy, hne, rebuildEffect, teardown, hv]

/-- Witness for the amended claim C6 on the rendered 50-node state. -/
theorem C6_layout_switch_repositions_then_rebuilds_witness :
    (handleChangeLayout renderedState (some demoGraph) "grid").layoutRuns =
        renderedState.layoutRuns ++ [("grid", getLayoutConfig "grid")]
    ∧ (handleChangeLayout renderedState (some demoGraph) "grid").constructCount =
        renderedState.constructCount + 1
    ∧ (handleChangeLayout renderedState (some demoGraph) "grid").destroyCount =
        renderedState.destroyCount + 1
    ∧ (handleChangeLayout renderedState (some demoGraph) "grid").cy =
        some (initEngine demoNodes [] "grid")
    ∧ (handleChangeLayout renderedState (some demoGraph) "grid").layout = "grid" :=
  C6_layout_switch_repositions_then_rebuilds renderedState demoEngine demoGraph
    "grid" demoNodes [] rfl (by decide) rfl

/-- Claim C7 counterexample: highlighting only node `a` on the engine with
edge `a → b` promotes that edge to "highlighted" although its endpoint `b`
is dimmed (not a member of the highlight set) — the code promotes the
edges connected to ANY highlighted node, not only those whose two
endpoints are both highlighted as the claim states. -/
theorem C7_edge_promoted_with_one_highlighted_endpoint :
    (applyHighlight abEngine ["a"]).nodes =
      [{ id := "a", highlighted := true, dimmed := false },
       { id := "b", highlighted := false, dimmed := true }]
    ∧ (applyHighlight abEngine ["a"]).edges =
        [{ source := "a", target := "b", highlighted := true, dimmed := false }]
    ∧ ¬ ("b" ∈ (["a"] : List String)) := by
  refine ⟨rfl, rfl, ?_⟩
  decide

/-- Claim C7 amended: applying the highlight overlay first resets every
node and edge to the neutral classification; with a non-empty highlight
list, exactly the member nodes become "highlighted" and all other nodes
"dimmed", and exactly the edges with AT LEAST ONE endpoint among the
highlighted nodes are promoted from "dimmed" to "highlighted" (all other
edges stay dimmed); an empty highlight list leaves every element with no
overlay classification; and the effect never constructs or destroys an
engine instance. -/
theorem C7_highlight_overlay_characterization (e : Engine) (hl : List String) :
    (hl = [] →
      (applyHighlight e hl).nodes = e.nodes.map resetNode
      ∧ (applyHighlight e hl).edges = e.edges.map resetEdge)
    ∧ (hl ≠ [] →
      (applyHighlight e hl).nodes = e.nodes.map (fun v =>
        if hl.contains v.id then { id := v.id, highlighted := true, dimmed := false }
        else { id := v.id, highlighted := false, dimmed := true })
      ∧ (applyHighlight e hl).edges = e.edges.map (fun w =>
        if (highlightNodeIds e hl).contains w.source
            || (highlightNodeIds e hl).contains w.target then
          { source := w.source, target := w.target, highlighted := true, dimmed := false }
        else { source := w.source, target := w.target, highlighted := false, dimmed := true }))
    ∧ (∀ s : GVState, (highlightEffect s hl).constructCount = s.constructCount
        ∧ (highlightEffect s hl).destroyCount = s.destroyCount
        ∧ ((highlightEffect s hl).cy.isSome ↔ s.cy.isSome)) := by
  refine ⟨?_, ?_, ?_⟩
  · intro h
    subst h
    simp [applyHighlight]
  · intro h
    have hpos : 0 < hl.length := List.length_pos.mpr h
    constructor
    · simp only [applyHighlight, if_pos hpos, List.map_map]
      refine List.map_congr_left ?_
      intro v _
      by_cases hv : hl.contains v.id <;>
        simp [resetNode, Function.comp, hv]
    · simp only [applyHighlight, if_pos hpos, List.map_map]
      refine List.map_congr_left ?_
      intro w _
      by_cases hw : ((highlightNodeIds e hl).contains w.source
          || (highlightNodeIds e hl).contains w.target) = true <;>
        simp [resetEdge, Function.comp, hw]
  · intro s
    cases hcy : s.cy <;> simp [highlightEffect, hcy]

/-- Witness for the amended claim C7 on the concrete two-node engine, for
a non-empty and for an empty highlight list. -/
theorem C7_highlight_overlay_characterization_witness :
    (applyHighlight abEngine ["a"]).nodes = abEngine.nodes.map (fun v =>
      if (["a"] : List String).contains v.id then
        { id := v.id, highlighted := true, dimmed := false }
      else { id := v.id, highlighted := false, dimmed := true })
    ∧ (applyHighlight abEngine []).nodes = abEngine.nodes.map resetNode :=
  ⟨((C7_highlight_overlay_characterization abEngine ["a"]).2.1 (by decide)).1,
    ((C7_highlight_overlay_characterization abEngine []).1 rfl).1⟩

/-- Claim C10: while no clamping occurs, zoom-in multiplies the zoom level
by exactly 1.2 and zoom-out by exactly 0.8 on the engine configured with
zoom range [0.1, 3]; since 1.2 × 0.8 = 0.96, a zoom-in followed by a
zoom-out yields 0.96 × the original zoom, which differs from the original
level — the two operations are not inverses. -/
theorem C10_zoom_in_then_out_is_not_identity (s : GVState) (e : Engine)
    (hcy : s.cy = some e) (hmin : e.minZoom = 1 / 10) (hmax : e.maxZoom = 3)
    (h96 : 1 / 10 ≤ e.zoom * 0.96) (h12 : e.zoom * 1.2 ≤ 3)
    (h08 : 1 / 10 ≤ e.zoom * 0.8) :
    ((1.2 : ℚ) * 0.8 = 0.96)
    ∧ (handleZoomIn s).cy = some { e with zoom := e.zoom * 1.2 }
    ∧ (handleZoomOut s).cy = some { e with zoom := e.zoom * 0.8 }
    ∧ (handleZoomOut (handleZoomIn s)).cy = some { e with zoom := e.zoom * 0.96 }
    ∧ e.zoom * 0.96 ≠ e.zoom
    ∧ (∀ (ns : List CyNode) (es : List CyEdge) (name : String),
        (initEngine ns es name).minZoom = 1 / 10 ∧ (initEngine ns es name).maxZoom = 3) := by
  have hz : (0 : ℚ) < e.zoom := by nlinarith
  have hlo12 : (1 : ℚ) / 10 ≤ e.zoom * 1.2 := by nlinarith
  have hhi08 : e.zoom * 0.8 ≤ 3 := by nlinarith
  have hin : cyZoomSet e (e.zoom * 1.2) = { e with zoom := e.zoom * 1.2 } := by
    simp only [cyZoomSet, hmin, hmax]
    rw [max_eq_right hlo12, min_eq_right h12]
  have hout : cyZoomSet e (e.zoom * 0.8) = { e with zoom := e.zoom * 0.8 } := by
    simp only [cyZoomSet, hmin, hmax]
    rw [max_eq_right h08, min_eq_right hhi08]
  have hstep1 : handleZoomIn s = { s with cy := some { e with zoom := e.zoom * 1.2 } } := by
    simp [handleZoomIn, hcy, hin]
  have hcomp : cyZoomSet { e with zoom := e.zoom * 1.2 } (e.zoom * 1.2 * 0.8) =
      { e with zoom := e.zoom * 0.96 } := by
    simp only [cyZoomSet, hmin, hmax]
    have harith : e.zoom * 1.2 * 0.8 = e.zoom * 0.96 := by ring
    rw [harith, max_eq_right h96, min_eq_right (by nlinarith)]
  refine ⟨by norm_num, ?_, ?_, ?_, ?_, ?_⟩
  · simp [hstep1]
  · simp [handleZoomOut, hcy, hout]
  · rw [hstep1]
    simp [handleZoomOut, hcomp]
  · intro hcontra
    nlinarith
  · intro ns es name
    exact ⟨rfl, rfl⟩

/-- Witness for claim C10 on the rendered state's engine (zoom level 1):
zooming in yields 1.2, zooming back out yields 0.96 ≠ 1. -/
theorem C10_zoom_in_then_out_is_not_identity_witness :
    (handleZoomIn renderedState).cy = some { demoEngine with zoom := demoEngine.zoom * 1.2 }
    ∧ (handleZoomOut (handleZoomIn renderedState)).cy =
        some { demoEngine with zoom := demoEngine.zoom * 0.96 }
    ∧ demoEngine.zoom * 0.96 ≠ demoEngine.zoom :=
  ⟨(C10_zoom_in_then_out_is_not_identity renderedState demoEngine rfl rfl rfl
      (by norm_num [demoEngine, initEngine]) (by norm_num [demoEngine, initEngine])
      (by norm_num [demoEngine, initEngine])).2.1,
    (C10_zoom_in_then_out_is_not_identity renderedState demoEngine rfl rfl rfl
      (by norm_num [demoEngine, initEngine]) (by norm_num [demoEngine, initEngine])
      (by norm_num [demoEngine, initEngine])).2.2.2.1,
    (C10_zoom_in_then_out_is_not_identity renderedState demoEngine rfl rfl rfl
      (by norm_num [demoEngine, initEngine]) (by norm_num [demoEngine, initEngine])
      (by norm_num [demoEngine, initEngine])).2.2.2.2.1⟩

end DepGrapher
